import Mathlib

/-!
Verification of the hybrid document-query pipeline: chunking, token-budgeted
retrieval, structured field extraction, query routing and the retry/backoff
wrapper, shallowly embedded from `app.py`, `document_analyzer.py` and
`groq_api.py`.

String-processing primitives of the host language (`str.lower`, `str.strip`,
`str.split`, the `in` substring test, slicing) are modelled character-wise on
`List Char` so that every definition is executable and kernel-reducible.
-/

namespace Pipeline

/-! ## String primitives (models of the Python built-ins used by the code) -/

/-- Model of Python `needle in hay` specialised to character lists:
`startsWithChars needle cs` holds when `needle` is a prefix of `cs`. -/
def startsWithChars : List Char → List Char → Bool
  | [], _ => true
  | _ :: _, [] => false
  | a :: as, b :: bs => a == b && startsWithChars as bs

/-- Model of Python's substring test on character lists: `needle` occurs
contiguously somewhere in the list. -/
def occursInChars (needle : List Char) : List Char → Bool
  | [] => startsWithChars needle []
  | b :: bs => startsWithChars needle (b :: bs) || occursInChars needle bs

/-- Model of Python `needle in hay` for strings. -/
def strContains (hay needle : String) : Bool :=
  occursInChars needle.toList hay.toList

/-- Model of Python `str.lower` (character-wise lowering). -/
def strLower (s : String) : String :=
  String.mk (s.toList.map Char.toLower)

/-- Model of Python `str.strip` (drop whitespace at both ends). -/
def strTrim (s : String) : String :=
  String.mk (((s.toList.dropWhile Char.isWhitespace).reverse.dropWhile Char.isWhitespace).reverse)

/-- Model of Python slicing `s[:n]` (first `n` characters). -/
def strTake (s : String) (n : Nat) : String :=
  String.mk (s.toList.take n)

/-- Model of Python `sep.join(parts)`. -/
def joinWith (sep : String) : List String → String
  | [] => ""
  | [s] => s
  | s :: s' :: ss => s ++ sep ++ joinWith sep (s' :: ss)

/-- Model of Python `text.split('\n')`: split at every newline, keeping
empty pieces. -/
def splitLinesAux : List Char → List Char → List String
  | [], acc => [String.mk acc.reverse]
  | c :: cs, acc =>
    if c == '\n' then String.mk acc.reverse :: splitLinesAux cs []
    else splitLinesAux cs (c :: acc)

/-- Model of Python `text.split('\n')`. -/
def splitLines (s : String) : List String :=
  splitLinesAux s.toList []

/-- Accumulator loop behind `splitWords`: Python `str.split()` with no
argument, which splits on runs of whitespace and drops empty pieces.  The
accumulator holds the current word reversed. -/
def splitWordsAux : List Char → List Char → List (List Char)
  | [], acc => if acc.isEmpty then [] else [acc.reverse]
  | c :: cs, acc =>
    if c.isWhitespace then
      if acc.isEmpty then splitWordsAux cs [] else acc.reverse :: splitWordsAux cs []
    else splitWordsAux cs (c :: acc)

/-- Model of Python `text.split()` (whitespace tokenisation). -/
def splitWords (s : String) : List String :=
  (splitWordsAux s.toList []).map String.mk

/-! ## Chunker (`split_document`, app.py) -/

/-- Token estimate from `estimate_tokens` in app.py: `len(text) // 4`. -/
def estimate_tokens (text : String) : Nat :=
  text.length / 4

/-- Grouping loop behind `split_document`: Python
`[words[i:i+chunk_size] for i in range(0, len(words), chunk_size)]` for
`chunk_size ≥ 1` (Python raises on step 0, so the model is only invoked with a
positive size by the claims).  The first argument is fuel, instantiated with
the word count, which makes the recursion structural. -/
def groupWords : Nat → List String → Nat → List (List String)
  | _, [], _ => []
  | 0, _ :: _, _ => []
  | fuel + 1, w :: ws, chunk_size =>
    (w :: ws.take (chunk_size - 1)) :: groupWords fuel (ws.drop (chunk_size - 1)) chunk_size

/-- Model of `split_document` in app.py: whitespace-split the text and join
consecutive windows of `chunk_size` words with single spaces. -/
def split_document (text : String) (chunk_size : Nat) : List String :=
  (groupWords (splitWords text).length (splitWords text) chunk_size).map (joinWith " ")

/-! ## Embedding Index retrieval (`retrieve_relevant_chunks`, app.py) -/

/-- Failure mode named by the specification for retrieval against a missing
index.  The codomain of `retrieve_relevant_chunks` is `Except` so that the
claimed failure is expressible; the translated code itself returns `.ok` on
every path, as the source does (it logs the missing index and returns `[]`). -/
inductive RetrievalError where
  | indexNotFound
deriving DecidableEq

/-- Persisted per-document index: the pickled parallel chunk-text sequence,
the FAISS vector count (`index.ntotal`), and the nearest-neighbour lookup
`search query top_k ↦ ranked row indices`, which abstracts the embedding
model and FAISS (external collaborators). -/
structure VectorIndex where
  chunks : List String
  ntotal : Nat
  search : String → Nat → List Nat

/-- Budget loop of `retrieve_relevant_chunks`: walk the ranked indices,
skip out-of-range rows, append whole chunks while the running token estimate
stays within `max_tokens`, truncate the first overflowing chunk to
`remaining_tokens * 4` characters (appending it only if non-empty) and stop. -/
def accumulateChunks (chunks : List String) : List Nat → Nat → Nat → List String
  | [], _, _ => []
  | idx :: rest, max_tokens, total_tokens =>
    if idx < chunks.length then
      let chunk := chunks.getD idx ""
      let chunk_tokens := estimate_tokens chunk
      if total_tokens + chunk_tokens ≤ max_tokens then
        chunk :: accumulateChunks chunks rest max_tokens (total_tokens + chunk_tokens)
      else
        let remaining_tokens := max_tokens - total_tokens
        let chars_to_keep := remaining_tokens * 4
        let truncated_chunk := strTake chunk chars_to_keep
        if truncated_chunk != "" then [truncated_chunk] else []
    else
      accumulateChunks chunks rest max_tokens total_tokens

/-- Model of `retrieve_relevant_chunks` in app.py.  The `store` argument
abstracts the on-disk vector-DB directory: it maps a document filename to its
persisted index when the `.faiss`/`_chunks.pkl` pair exists. -/
def retrieve_relevant_chunks (store : String → Option VectorIndex)
    (query filename : String) (max_tokens top_k : Nat) :
    Except RetrievalError (List String) :=
  match store filename with
  | none => .ok []
  | some index =>
    if index.ntotal = 0 then .ok []
    else .ok (accumulateChunks index.chunks (index.search query top_k) max_tokens 0)

/-! ## Structured Extractor (`DocumentAnalyzer`, document_analyzer.py) -/

/-- Scanning loop of `DocumentAnalyzer._find_section`: a line whose lowered,
stripped form contains any section name (re)enters the section; inside the
section, stripped lines longer than 2 characters are collected, and a short
or blank line ends the scan once something has been collected. -/
def find_section_go (section_names : List String) :
    List String → Bool → List String → List String
  | [], _, section_content => section_content.reverse
  | line :: rest, in_section, section_content =>
    let line_lower := strTrim (strLower line)
    if section_names.any (fun name => strContains line_lower name) then
      find_section_go section_names rest true section_content
    else if in_section then
      let stripped := strTrim line
      if 2 < stripped.length then
        find_section_go section_names rest in_section (stripped :: section_content)
      else if 0 < section_content.length then
        section_content.reverse
      else
        find_section_go section_names rest in_section section_content
    else
      find_section_go section_names rest in_section section_content

/-- Model of `DocumentAnalyzer._find_section`. -/
def find_section (text : String) (section_names : List String) : String :=
  joinWith "\n" (find_section_go section_names (splitLines text) false [])

/-- Generic section-to-list extraction shared by
`_extract_coverage_details`, `_extract_exclusions` and
`_extract_claims_process`: keep stripped lines longer than 10 characters and
cap the result at 5 items. -/
def extract_section_items (text : String) (section_names : List String) : List String :=
  let sec := find_section text section_names
  let items :=
    if sec != "" then
      ((splitLines sec).filter (fun line => 10 < (strTrim line).length)).map strTrim
    else []
  items.take 5

/-- Model of `DocumentAnalyzer._extract_coverage_details`. -/
def extract_coverage_details (text : String) : List String :=
  extract_section_items text ["coverage", "benefits", "what is covered"]

/-- Model of `DocumentAnalyzer._extract_exclusions`. -/
def extract_exclusions (text : String) : List String :=
  extract_section_items text ["exclusions", "what is not covered", "limitations"]

/-- Model of `DocumentAnalyzer._extract_claims_process`. -/
def extract_claims_process (text : String) : List String :=
  extract_section_items text ["claims", "claim process", "filing claims"]

/-- Model of `DocumentAnalyzer._extract_premium_info`: the premium section
text capped at 200 characters with an ellipsis, or the sentinel string when
no premium/payment/cost section is found. -/
def extract_premium_info (text : String) : String :=
  let premium_section := find_section text ["premium", "payment", "cost"]
  if premium_section != "" then
    if 200 < premium_section.length then strTake premium_section 200 ++ "..."
    else premium_section
  else "Premium information not found"

/-- Model of Python `str.title()` on the single lowercase words it is applied
to here: capitalise the first character. -/
def strCapitalize (s : String) : String :=
  match s.toList with
  | [] => ""
  | c :: cs => String.mk (c.toUpper :: cs)

/-- Policy types probed by `DocumentAnalyzer._extract_policy_type`. -/
def policy_types : List String := ["health", "life", "auto", "home", "property", "liability"]

/-- Model of `DocumentAnalyzer._extract_policy_type`. -/
def extract_policy_type (text : String) : String :=
  match policy_types.find? (fun pt => strContains (strLower text) pt) with
  | some pt => strCapitalize pt ++ " Insurance"
  | none => "Insurance Policy"

/-- Model of `DocumentAnalyzer._identify_policy_sections`. -/
def identify_policy_sections (text : String) : List String :=
  (["coverage", "exclusions", "claims", "premium", "terms", "conditions"].filter
    (fun k => strContains (strLower text) k)).map strCapitalize

/-- Resume indicators of `DocumentAnalyzer._detect_document_type`. -/
def resume_keywords : List String :=
  ["resume", "cv", "curriculum vitae", "experience", "skills", "education", "objective", "summary"]

/-- Insurance indicators of `DocumentAnalyzer._detect_document_type`. -/
def da_insurance_keywords : List String :=
  ["insurance", "policy", "coverage", "premium", "claim", "benefits", "exclusions"]

/-- Legal indicators of `DocumentAnalyzer._detect_document_type`. -/
def legal_keywords : List String :=
  ["contract", "agreement", "terms", "conditions", "party", "obligations", "liability"]

/-- HR indicators of `DocumentAnalyzer._detect_document_type`. -/
def hr_keywords : List String :=
  ["employment", "employee", "hr", "human resources", "job description", "policy"]

/-- Model of `DocumentAnalyzer._detect_document_type`: ordered single-keyword
category tests with no occurrence threshold. -/
def detect_document_type (text : String) : String :=
  let text_lower := strLower text
  if resume_keywords.any (fun k => strContains text_lower k) then "resume"
  else if da_insurance_keywords.any (fun k => strContains text_lower k) then "insurance_policy"
  else if legal_keywords.any (fun k => strContains text_lower k) then "legal_contract"
  else if hr_keywords.any (fun k => strContains text_lower k) then "hr_document"
  else "general_document"

/-- Structured field map consumed by `try_structured_extraction`.  The fields
mirror the dictionary keys the router reads with `analysis.get(key, default)`:
the insurance analyzer populates `document_type`, `policy_type`,
`coverage_details`, `exclusions`, `claims_process`, `premium_info` and
`key_sections`, while `key_terms`, `terms_conditions` and `definitions` are
read by the router but never written by the insurance analyzer, so they
default to `[]`; a missing `premium_info` and an empty premium string are
both modelled as `""` since both are falsy under the router's guard. -/
structure Analysis where
  document_type : String
  policy_type : String
  coverage_details : List String
  exclusions : List String
  claims_process : List String
  premium_info : String
  key_sections : List String
  key_terms : List String
  terms_conditions : List String
  definitions : List String
deriving DecidableEq

/-- Model of `DocumentAnalyzer._analyze_insurance_policy`. -/
def analyze_insurance_policy (text : String) : Analysis where
  document_type := "Insurance Policy"
  policy_type := extract_policy_type text
  coverage_details := extract_coverage_details text
  exclusions := extract_exclusions text
  claims_process := extract_claims_process text
  premium_info := extract_premium_info text
  key_sections := identify_policy_sections text
  key_terms := []
  terms_conditions := []
  definitions := []

/-! ## App-level simple analysis (`analyze_document_content`, app.py) -/

/-- Insurance keyword set of `analyze_document_content` in app.py. -/
def insurance_keywords : List String :=
  ["insurance", "policy", "coverage", "premium", "sum insured", "policy period",
   "policyholder", "insured", "claim", "exclusion", "waiting period", "grace period",
   "cumulative bonus", "portability", "renewal", "deductible", "co-payment"]

/-- Count of insurance keywords occurring in the lowercased document, as
computed by `analyze_document_content`. -/
def insuranceKeywordCount (document_text : String) : Nat :=
  (insurance_keywords.filter (fun k => strContains (strLower document_text) k)).length

/-- Result record of `analyze_document_content`. -/
structure SimpleAnalysis where
  document_type : String
  key_sections : List String
  word_count : Nat
  estimated_pages : Nat
  summary : String
deriving DecidableEq

/-- Model of `analyze_document_content` in app.py: classify as
"Insurance Policy" when at least 3 insurance keywords occur, else fall
through ordered single-keyword tests, defaulting to "General Document". -/
def analyze_document_content (document_text : String) : SimpleAnalysis :=
  let text_lower := strLower document_text
  let document_type :=
    if 3 ≤ insuranceKeywordCount document_text then "Insurance Policy"
    else if ["contract", "agreement", "terms", "conditions"].any
        (fun k => strContains text_lower k) then "Legal Contract"
    else if ["employment", "hr", "human resources", "employee"].any
        (fun k => strContains text_lower k) then "HR Document"
    else if ["compliance", "regulation", "regulatory", "legal"].any
        (fun k => strContains text_lower k) then "Compliance Document"
    else "General Document"
  let key_sections :=
    (if strContains text_lower "coverage" then ["Coverage Details"] else []) ++
    (if strContains text_lower "exclusion" then ["Exclusions"] else []) ++
    (if strContains text_lower "claim" then ["Claims Process"] else []) ++
    (if strContains text_lower "term" then ["Terms and Conditions"] else []) ++
    (if strContains text_lower "liability" then ["Liability"] else [])
  { document_type := document_type
    key_sections := key_sections
    word_count := (splitWords document_text).length
    estimated_pages := document_text.length / 500
    summary := "This appears to be a " ++ strLower document_type ++ " containing " ++
      toString key_sections.length ++ " main sections." }

/-! ## Query Router (`try_structured_extraction` / `process_query`, app.py) -/

/-- Match of the numeric-duration regex at one position: one or more digits,
then optional whitespace, then a year/month/day unit (the plural alternatives
of the regex are redundant for existence since each is an extension of the
singular).  Greedy consumption of the digit and whitespace runs is exact here
because neither run's characters can begin a unit. -/
def durationMatchAt : List Char → Bool
  | [] => false
  | c :: rest =>
    c.isDigit &&
      (let after := (rest.dropWhile Char.isDigit).dropWhile Char.isWhitespace
       startsWithChars "year".toList after || startsWithChars "month".toList after ||
         startsWithChars "day".toList after)

/-- Existence of a match at some suffix of the list. -/
def anySuffix (p : List Char → Bool) : List Char → Bool
  | [] => p []
  | c :: cs => p (c :: cs) || anySuffix p cs

/-- Model of `re.search` with the duration pattern
`(\d+)\s*(year|years|month|months|day|days)` used by the router. -/
def durationSearch (s : String) : Bool :=
  anySuffix durationMatchAt s.toList

/-- Query keywords that trigger the duration branch of the router. -/
def duration_query_keywords : List String :=
  ["duration", "period", "term", "policy term", "policy period", "length", "how long"]

/-- Term keywords required of a duration snippet by the router. -/
def duration_term_keywords : List String :=
  ["duration", "period", "term", "policy term", "policy period"]

/-- Query keywords that trigger the coverage branch of the router. -/
def coverage_query_keywords : List String := ["coverage", "covered", "protection", "benefits"]

/-- Snippet keywords required of a coverage detail by the router. -/
def coverage_detail_keywords : List String := ["coverage", "covered", "benefits", "included"]

/-- Query keywords that trigger the exclusions branch of the router. -/
def exclusion_query_keywords : List String := ["exclusion", "excluded", "not covered"]

/-- Snippet keywords required of an exclusion by the router. -/
def exclusion_detail_keywords : List String := ["exclusion", "excluded", "not covered", "limitation"]

/-- Query keywords that trigger the claims branch of the router. -/
def claims_query_keywords : List String := ["claim", "file a claim", "claims process", "how to claim"]

/-- Snippet keywords required of a claims snippet by the router. -/
def claims_detail_keywords : List String := ["claim", "claims", "file", "process", "procedure"]

/-- Query keywords that trigger the premium branch of the router. -/
def premium_query_keywords : List String := ["premium", "cost", "price", "payment", "fee"]

/-- Keywords required of the premium string by the router. -/
def premium_detail_keywords : List String := ["premium", "cost", "price", "payment", "fee"]

/-- Query keywords that trigger the terms branch of the router. -/
def terms_query_keywords : List String := ["terms", "conditions", "terms and conditions"]

/-- Snippet keywords required of a terms snippet by the router. -/
def terms_detail_keywords : List String := ["terms", "conditions", "provision", "clause"]

/-- Query keywords that trigger the definitions branch of the router. -/
def definitions_query_keywords : List String := ["definition", "define", "meaning"]

/-- Snippet keywords required of a definition snippet by the router. -/
def definitions_detail_keywords : List String := ["definition", "defined as", "means", "refers to"]

/-- Duration-keyword test applied to a candidate snippet (on its lowering). -/
def hasDurationKeyword (term : String) : Bool :=
  duration_term_keywords.any (fun k => strContains (strLower term) k)

/-- Numeric-duration pattern test applied to a candidate snippet. -/
def hasDurationPattern (term : String) : Bool :=
  durationSearch (strLower term)

/-- Sections scanned by the duration branch, in the code's order:
`key_terms`, then `terms_conditions`, then `definitions`. -/
def durationCandidates (analysis : Analysis) : List String :=
  analysis.key_terms ++ analysis.terms_conditions ++ analysis.definitions

/-- Token-usage counters of an answer. -/
structure TokenUsage where
  input_tokens : Nat
  output_tokens : Nat
  total_tokens : Nat
deriving DecidableEq

/-- An answer together with its token-usage counters. -/
structure QueryResult where
  answer : String
  token_usage : TokenUsage
deriving DecidableEq

/-- Body shared by the coverage/exclusions/claims/terms/definitions branches
of `try_structured_extraction`: scan the branch's own section and return the
first snippet containing one of the branch's keywords, with zero usage (the
code's per-branch loops all have this shape). -/
def sectionAnswer (snippets detail_keywords : List String) : Option QueryResult :=
  match snippets.find?
      (fun s => detail_keywords.any (fun k => strContains (strLower s) k)) with
  | some s => some { answer := s, token_usage := ⟨0, 0, 0⟩ }
  | none => none

/-- Body of the duration branch of `try_structured_extraction`: first pass
over the scanned sections requires a duration keyword and the numeric
pattern, second pass a duration keyword alone. -/
def durationAnswer (analysis : Analysis) : Option QueryResult :=
  match (durationCandidates analysis).find?
      (fun t => hasDurationKeyword t && hasDurationPattern t) with
  | some t => some { answer := t, token_usage := ⟨0, 0, 0⟩ }
  | none =>
    match (durationCandidates analysis).find? (fun t => hasDurationKeyword t) with
    | some t => some { answer := t, token_usage := ⟨0, 0, 0⟩ }
    | none => none

/-- Body of the premium branch of `try_structured_extraction`: the premium
string is returned when it is non-empty (truthy) and mentions one of the
premium keywords. -/
def premiumAnswer (analysis : Analysis) : Option QueryResult :=
  if analysis.premium_info != "" &&
      premium_detail_keywords.any
        (fun k => strContains (strLower analysis.premium_info) k) then
    some { answer := analysis.premium_info, token_usage := ⟨0, 0, 0⟩ }
  else none

/-- Model of `try_structured_extraction` in app.py.  Only insurance-policy
documents are handled; the branches are the code's if/elif chain, each
triggered by an exact query-type hint or by query keywords, each scanning
only its own section and returning the first snippet passing its keyword
test, always with zero token usage.  The duration branch prefers snippets
that carry both a duration keyword and the numeric-duration pattern and only
then falls back to keyword-only snippets. -/
def try_structured_extraction (query : String) (analysis : Analysis)
    (document_type query_type : String) : Option QueryResult :=
  if document_type == "Insurance Policy" then
    let query_lower := strLower query
    if query_type == "duration" ||
        duration_query_keywords.any (fun k => strContains query_lower k) then
      durationAnswer analysis
    else if query_type == "coverage" ||
        coverage_query_keywords.any (fun k => strContains query_lower k) then
      sectionAnswer analysis.coverage_details coverage_detail_keywords
    else if query_type == "exclusions" ||
        exclusion_query_keywords.any (fun k => strContains query_lower k) then
      sectionAnswer analysis.exclusions exclusion_detail_keywords
    else if query_type == "claims" ||
        claims_query_keywords.any (fun k => strContains query_lower k) then
      sectionAnswer analysis.claims_process claims_detail_keywords
    else if query_type == "premium" ||
        premium_query_keywords.any (fun k => strContains query_lower k) then
      premiumAnswer analysis
    else if query_type == "terms" ||
        terms_query_keywords.any (fun k => strContains query_lower k) then
      sectionAnswer analysis.terms_conditions terms_detail_keywords
    else if query_type == "definitions" ||
        definitions_query_keywords.any (fun k => strContains query_lower k) then
      sectionAnswer analysis.definitions definitions_detail_keywords
    else none
  else none

/-- Model of the `/query` handler `process_query` in app.py.  `ragResult`
abstracts the retrieval-plus-generation fallback (the Groq call on the
retrieved context, an external collaborator); the returned flag records
whether that fallback stage ran (`false` means the structured short-circuit
answered).  The two guard errors mirror the handler's 400 responses. -/
def process_query (query document_text filename : String) (analysis : Analysis)
    (query_type : String) (ragResult : QueryResult) :
    Except String (QueryResult × Bool) :=
  if query == "" then .error "No query provided"
  else if document_text == "" || filename == "" then
    .error "No document text or filename provided"
  else
    match try_structured_extraction query analysis analysis.document_type query_type with
    | some result => .ok (result, false)
    | none => .ok (ragResult, true)

/-! ## Retry/backoff wrapper (`retry_with_backoff`, app.py) -/

/-- Outcome of one invocation of the wrapped operation. -/
inductive CallOutcome where
  | success (value : String)
  | failure (message : String)
deriving DecidableEq

/-- Digits-to-number conversion used by the decimal parser. -/
def natOfDigits (cs : List Char) : Nat :=
  cs.foldl (fun n c => 10 * n + (c.toNat - 48)) 0

/-- Value of a captured decimal such as "2.5" or "10", modelling Python
`float` on the well-formed captures the retry regex produces. -/
def ratOfDecimalChars (cs : List Char) : ℚ :=
  let intPart := cs.takeWhile (fun c => c != '.')
  let fracPart := (cs.dropWhile (fun c => c != '.')).drop 1
  (natOfDigits intPart : ℚ) + (natOfDigits fracPart : ℚ) / (10 : ℚ) ^ fracPart.length

/-- Character class `[\d.]` of the retry-hint regex. -/
def isDigitOrDot (c : Char) : Bool :=
  c.isDigit || c == '.'

/-- Literal prefix of the retry-hint regex `Please try again in ([\d.]+)s`. -/
def tryAgainPat : List Char := "Please try again in ".toList

/-- Match of the retry-hint regex anchored at one position: the literal
prefix, then a non-empty run of digits and dots, then the letter `s`.  The
run is consumed greedily, which is exact since `s` is not in the class. -/
def matchRetryAt (cs : List Char) : Option ℚ :=
  if startsWithChars tryAgainPat cs then
    let rest := cs.drop tryAgainPat.length
    let run := rest.takeWhile isDigitOrDot
    let after := rest.drop run.length
    if run != [] && after.headD ' ' == 's' then some (ratOfDecimalChars run)
    else none
  else none

/-- Scan of `re.search` over all start positions. -/
def searchRetryTime : List Char → Option ℚ
  | [] => matchRetryAt []
  | c :: cs =>
    match matchRetryAt (c :: cs) with
    | some v => some v
    | none => searchRetryTime cs

/-- Server-suggested retry delay parsed from an error message, as in
`retry_with_backoff`. -/
def parseRetryTime (message : String) : Option ℚ :=
  searchRetryTime message.toList

/-- Attempt loop of `retry_with_backoff`.  `remaining` counts the attempts
left of `max_retries` (so the Python guard `attempt < max_retries - 1` is
`remaining ≠ 0` after the current attempt is peeled off); the result carries
the number of invocations made and the total slept delay.  Delays are exact
rationals, standing in for the Python floats. -/
def retryLoop (f : Nat → CallOutcome) (base_delay : ℚ) :
    Nat → Nat → Nat → ℚ → Except String String × Nat × ℚ
  | 0, _, calls, slept => (.error "Max retries reached", calls, slept)
  | remaining + 1, attempt, calls, slept =>
    match f attempt with
    | .success v => (.ok v, calls + 1, slept)
    | .failure msg =>
      if strContains msg "rate_limit_exceeded" && remaining != 0 then
        let retry_time := (parseRetryTime msg).getD 10
        let delay := base_delay * 2 ^ attempt + retry_time
        retryLoop f base_delay remaining (attempt + 1) (calls + 1) (slept + delay)
      else
        (.error msg, calls + 1, slept)

/-- Model of `retry_with_backoff` in app.py.  The wrapped operation is given
as the outcome of its successive invocations (`f n` is what the `n`-th call
does); the model returns the wrapper's result, the number of invocations and
the total slept delay. -/
def retry_with_backoff (f : Nat → CallOutcome) (max_retries : Nat) (base_delay : ℚ) :
    Except String String × Nat × ℚ :=
  retryLoop f base_delay max_retries 0 0 0

/-! ## Helper lemmas -/

/-- Truncation to `k * 4` characters estimates to at most `k` tokens. -/
theorem estimate_tokens_strTake_le (s : String) (k : Nat) :
    estimate_tokens (strTake s (k * 4)) ≤ k := by
  have h1 : estimate_tokens (strTake s (k * 4)) = (s.toList.take (k * 4)).length / 4 := rfl
  have h2 : (s.toList.take (k * 4)).length ≤ k * 4 :=
    List.length_take_le (k * 4) s.toList
  have h3 : (s.toList.take (k * 4)).length / 4 ≤ k * 4 / 4 := Nat.div_le_div_right h2
  have h4 : k * 4 / 4 = k := Nat.mul_div_cancel k (by norm_num)
  omega

/-- Budget invariant of the accumulation loop: starting within budget, the
retained chunks' estimated token counts sum to at most the budget. -/
theorem accumulateChunks_tokenSum_le (chunks : List String) (idxs : List Nat)
    (max_tokens : Nat) :
    ∀ total, total ≤ max_tokens →
      total + ((accumulateChunks chunks idxs max_tokens total).map estimate_tokens).sum
        ≤ max_tokens := by
  induction idxs with
  | nil => intro total h; simpa [accumulateChunks] using h
  | cons idx rest ih =>
    intro total h
    simp only [accumulateChunks]
    split
    · split
      · rename_i hfit
        have := ih (total + estimate_tokens (chunks.getD idx "")) hfit
        simp only [List.map_cons, List.sum_cons]
        omega
      · rename_i hover
        split
        · have hk := estimate_tokens_strTake_le (chunks.getD idx "") (max_tokens - total)
          simp only [List.map_cons, List.map_nil, List.sum_cons, List.sum_nil]
          omega
        · simpa using h
    · exact ih total h

/-! ## Claim C1 — token-budgeted retrieval -/

/-- Ranked index used to test the budget bound on the joined context: three
three-character chunks, each estimating to `3 / 4 = 0` tokens. -/
def c1Index : VectorIndex where
  chunks := ["abc", "abc", "abc"]
  ntotal := 3
  search := fun _ _ => [0, 1, 2]

/-- Store holding `c1Index` under every filename. -/
def c1Store : String → Option VectorIndex := fun _ => some c1Index

/-- C1 counterexample: with budget `maxTokens = 0`, all three chunks are
accepted (each one's own estimate is `0`), yet the newline-joined context has
`11` characters and so an estimated token count of `2 > 0`.  The claimed
bound on the joined context's estimate is false. -/
theorem c1_joined_context_exceeds_budget :
    retrieve_relevant_chunks c1Store "q" "doc" 0 3 = .ok ["abc", "abc", "abc"] ∧
    ¬ estimate_tokens (joinWith "\n" ["abc", "abc", "abc"]) ≤ 0 :=
  ⟨rfl, by decide⟩

/-- C1 (amended): the retained chunks' estimated token counts (each chunk's
`len // 4`) sum to at most `maxTokens`; the loop otherwise behaves as the
claim describes (ranked accumulation, truncation of the first overflowing
chunk, stop).  The bound on the newline-joined context's own estimate does
not hold because joining adds separator characters and the per-chunk floor
division discards up to 3 characters per chunk. -/
theorem retrieval_token_sum_le_budget (store : String → Option VectorIndex)
    (query filename : String) (max_tokens top_k : Nat) (cs : List String)
    (h : retrieve_relevant_chunks store query filename max_tokens top_k = .ok cs) :
    (cs.map estimate_tokens).sum ≤ max_tokens := by
  unfold retrieve_relevant_chunks at h
  rcases hs : store filename with _ | index <;> rw [hs] at h
  · cases h
    simp
  · dsimp only at h
    by_cases hz : index.ntotal = 0
    · rw [if_pos hz] at h
      cases h
      simp
    · rw [if_neg hz] at h
      cases h
      simpa using accumulateChunks_tokenSum_le index.chunks
        (index.search query top_k) max_tokens 0 (Nat.zero_le _)

/-- Witness for the amended C1 at the concrete counterexample store: the
per-chunk estimates of the returned chunks sum to at most the budget. -/
theorem retrieval_token_sum_le_budget_witness :
    ((["abc", "abc", "abc"] : List String).map estimate_tokens).sum ≤ 0 :=
  retrieval_token_sum_le_budget c1Store "q" "doc" 0 3 ["abc", "abc", "abc"] rfl

/-! ## Claim C2 — missing and empty index -/

/-- Store with no index for any key. -/
def emptyStore : String → Option VectorIndex := fun _ => none

/-- C2 counterexample: for a key with no index, retrieval does not fail with
`IndexNotFoundError`; it returns the explicit empty result `.ok []`. -/
theorem c2_missing_index_returns_empty_not_error :
    retrieve_relevant_chunks emptyStore "q" "doc" 1500 3 = .ok [] ∧
    retrieve_relevant_chunks emptyStore "q" "doc" 1500 3 ≠
      .error RetrievalError.indexNotFound := by
  refine ⟨rfl, ?_⟩
  intro h
  rw [show retrieve_relevant_chunks emptyStore "q" "doc" 1500 3 = Except.ok [] from rfl] at h
  exact Except.noConfusion h

/-- C2 (amended): retrieval returns an explicit empty result — not a raised
`IndexNotFoundError` — when no index exists for the key (the code logs the
condition and returns `[]`), and likewise returns an empty result when the
index exists but contains zero vectors. -/
theorem retrieval_empty_results (store : String → Option VectorIndex)
    (query filename : String) (max_tokens top_k : Nat) :
    (store filename = none →
      retrieve_relevant_chunks store query filename max_tokens top_k = .ok []) ∧
    (∀ index, store filename = some index → index.ntotal = 0 →
      retrieve_relevant_chunks store query filename max_tokens top_k = .ok []) := by
  constructor
  · intro h
    unfold retrieve_relevant_chunks
    rw [h]
  · intro index h hz
    unfold retrieve_relevant_chunks
    rw [h]
    simp [hz]

/-- Witness for the amended C2: a store with no index at all, and a store
whose index exists but holds zero vectors, both yield the empty result. -/
theorem retrieval_empty_results_witness :
    retrieve_relevant_chunks emptyStore "q" "doc" 1500 3 = .ok [] ∧
    retrieve_relevant_chunks (fun _ => some ⟨[], 0, fun _ _ => []⟩) "q" "doc" 1500 3 = .ok [] :=
  ⟨(retrieval_empty_results emptyStore "q" "doc" 1500 3).1 rfl,
   (retrieval_empty_results (fun _ => some ⟨[], 0, fun _ _ => []⟩) "q" "doc" 1500 3).2
     ⟨[], 0, fun _ _ => []⟩ rfl rfl⟩

/-! ## Claim C3 — insurance classification threshold -/

/-- C3 counterexample: the document "premium" contains exactly one insurance
keyword (under the app-level 17-keyword set and under the analyzer's own
7-keyword set alike), yet the Structured Extractor's classification stage
(`_detect_document_type`) assigns it the insurance category.  The ≥3
threshold exists only in the app-level `analyze_document_content`, which
indeed classifies the same document as generic. -/
theorem c3_single_keyword_classifies_insurance :
    detect_document_type "premium" = "insurance_policy" ∧
    insuranceKeywordCount "premium" = 1 ∧
    (da_insurance_keywords.filter (fun k => strContains (strLower "premium") k)).length = 1 ∧
    (analyze_document_content "premium").document_type = "General Document" := by
  decide

/-- C3 (amended): the app-level classifier `analyze_document_content` assigns
"Insurance Policy" exactly when at least 3 keywords of its fixed set occur in
the lowercased text, otherwise falling through ordered single-keyword tests
to a generic default; but the Structured Extractor's own classification stage
`_detect_document_type` assigns the insurance category whenever at least one
of its insurance keywords occurs and no resume keyword occurs, so a document
with fewer than 3 insurance keywords can still classify as insurance there. -/
theorem classification_characterisation (t : String) :
    ((analyze_document_content t).document_type = "Insurance Policy" ↔
      3 ≤ insuranceKeywordCount t) ∧
    (detect_document_type t = "insurance_policy" ↔
      (resume_keywords.any (fun k => strContains (strLower t) k) = false ∧
       da_insurance_keywords.any (fun k => strContains (strLower t) k) = true)) := by
  constructor
  · unfold analyze_document_content
    dsimp only
    by_cases h1 : 3 ≤ insuranceKeywordCount t
    · rw [if_pos h1]
      exact iff_of_true rfl h1
    · rw [if_neg h1]
      refine iff_of_false ?_ h1
      split_ifs <;> decide
  · unfold detect_document_type
    dsimp only
    by_cases hr : resume_keywords.any (fun k => strContains (strLower t) k) = true
    · rw [if_pos hr]
      exact iff_of_false (by decide) (by simp [hr])
    · rw [if_neg hr]
      by_cases hi : da_insurance_keywords.any (fun k => strContains (strLower t) k) = true
      · rw [if_pos hi]
        exact iff_of_true rfl ⟨by simpa using hr, hi⟩
      · rw [if_neg hi]
        refine iff_of_false ?_ (fun hc => hi hc.2)
        split_ifs <;> decide

/-- Witness for the amended C3: a document with at least 3 insurance
keywords is classified "Insurance Policy" by the app-level classifier, and a
single-keyword document is classified insurance by the extractor's stage. -/
theorem classification_characterisation_witness :
    (analyze_document_content
        "This insurance policy lists the premium and the sum insured").document_type =
      "Insurance Policy" ∧
    detect_document_type "premium" = "insurance_policy" :=
  ⟨(classification_characterisation
      "This insurance policy lists the premium and the sum insured").1.mpr (by decide),
   (classification_characterisation "premium").2.mpr (by decide)⟩

/-! ## Claim C4 — chunker round trip and chunk count -/

/-- Character image of joining a list of words with single spaces. -/
def joinWordsChar : List (List Char) → List Char
  | [] => []
  | [w] => w
  | w :: w' :: ws => w ++ ' ' :: joinWordsChar (w' :: ws)

/-- The tokenizer consumes a whitespace-free block into the accumulator. -/
theorem splitWordsAux_word_append (w : List Char)
    (hw : ∀ c ∈ w, c.isWhitespace = false) :
    ∀ cs acc, splitWordsAux (w ++ cs) acc = splitWordsAux cs (w.reverse ++ acc) := by
  induction w with
  | nil => intro cs acc; simp
  | cons c w ih =>
    intro cs acc
    have hc : c.isWhitespace = false := hw c (List.mem_cons_self c w)
    have hw' : ∀ c' ∈ w, c'.isWhitespace = false :=
      fun c' h => hw c' (List.mem_cons_of_mem c h)
    rw [List.cons_append, splitWordsAux, if_neg (by simp [hc])]
    rw [ih hw' cs (c :: acc)]
    simp [List.append_assoc]

/-- Every word the tokenizer produces is non-empty and whitespace-free,
provided the accumulator holds only word characters. -/
theorem splitWordsAux_wf : ∀ (cs acc : List Char),
    (∀ c ∈ acc, c.isWhitespace = false) →
    ∀ w ∈ splitWordsAux cs acc, w ≠ [] ∧ ∀ c ∈ w, c.isWhitespace = false := by
  intro cs
  induction cs with
  | nil =>
    intro acc hacc w hw
    cases acc with
    | nil => simp [splitWordsAux] at hw
    | cons a as =>
      rw [splitWordsAux, if_neg (by simp)] at hw
      rcases List.mem_singleton.mp hw with rfl
      refine ⟨by simp, ?_⟩
      intro c hc
      exact hacc c (List.mem_reverse.mp hc)
  | cons c cs ih =>
    intro acc hacc w hw
    rw [splitWordsAux] at hw
    by_cases hc : c.isWhitespace = true
    · rw [if_pos hc] at hw
      cases acc with
      | nil =>
        rw [if_pos (by simp)] at hw
        exact ih [] (by simp) w hw
      | cons a as =>
        rw [if_neg (by simp)] at hw
        rcases List.mem_cons.mp hw with rfl | hw'
        · refine ⟨by simp, ?_⟩
          intro c' hc'
          exact hacc c' (List.mem_reverse.mp hc')
        · exact ih [] (by simp) w hw'
    · rw [if_neg hc] at hw
      refine ih (c :: acc) ?_ w hw
      intro c' h'
      rcases List.mem_cons.mp h' with rfl | h''
      · simpa using hc
      · exact hacc c' h''

/-- Round trip at the character level: tokenizing the single-space join of
non-empty whitespace-free words recovers exactly those words. -/
theorem splitWordsAux_joinWordsChar : ∀ ws : List (List Char),
    (∀ w ∈ ws, w ≠ [] ∧ ∀ c ∈ w, c.isWhitespace = false) →
    splitWordsAux (joinWordsChar ws) [] = ws := by
  intro ws
  induction ws with
  | nil => intro _; rfl
  | cons w ws ih =>
    intro hwf
    have hw := hwf w (List.mem_cons_self w ws)
    cases ws with
    | nil =>
      rw [joinWordsChar]
      have h1 : splitWordsAux (w ++ []) [] = splitWordsAux [] (w.reverse ++ []) :=
        splitWordsAux_word_append w hw.2 [] []
      rw [List.append_nil] at h1
      rw [h1, List.append_nil, splitWordsAux]
      rw [if_neg (by simp [hw.1])]
      simp
    | cons w' ws' =>
      rw [joinWordsChar, splitWordsAux_word_append w hw.2, splitWordsAux]
      rw [if_pos (by decide)]
      rw [if_neg (by simp [hw.1])]
      rw [List.append_nil, List.reverse_reverse]
      rw [ih (fun g hg => hwf g (List.mem_cons_of_mem w hg))]

/-- Character lists of an appended pair of strings. -/
theorem strToList_append (a b : String) : (a ++ b).toList = a.toList ++ b.toList := by
  cases a
  cases b
  rfl

/-- Character-level image of the string-level join of made-up words. -/
theorem joinWith_map_mk : ∀ ws : List (List Char),
    (joinWith " " (ws.map String.mk)).toList = joinWordsChar ws := by
  intro ws
  induction ws with
  | nil => rfl
  | cons w ws ih =>
    cases ws with
    | nil => rfl
    | cons w' ws' =>
      rw [List.map_cons, List.map_cons, joinWith, joinWordsChar]
      rw [strToList_append, strToList_append]
      rw [List.map_cons] at ih
      rw [ih]
      show (w ++ [' ']) ++ joinWordsChar (w' :: ws') = w ++ ' ' :: joinWordsChar (w' :: ws')
      simp

/-- Splitting a join of two non-empty chunk lists distributes. -/
theorem joinWith_append (sep : String) : ∀ (a b : List String), a ≠ [] → b ≠ [] →
    joinWith sep (a ++ b) = joinWith sep a ++ sep ++ joinWith sep b := by
  intro a
  induction a with
  | nil => intro b h; exact absurd rfl h
  | cons x a ih =>
    intro b _ hb
    cases a with
    | nil =>
      cases b with
      | nil => exact absurd rfl hb
      | cons y b' => rfl
    | cons x' a' =>
      rw [show (x :: x' :: a') ++ b = x :: ((x' :: a') ++ b) from rfl]
      rw [show (x' :: a') ++ b = x' :: (a' ++ b) from rfl]
      rw [joinWith]
      rw [show x' :: (a' ++ b) = (x' :: a') ++ b from rfl]
      rw [ih b (by simp) hb]
      rw [joinWith]
      simp [String.append_assoc]

/-- Joining per-group joins equals joining the flattened word list, for
non-empty groups. -/
theorem joinWith_flatten (sep : String) : ∀ gs : List (List String),
    (∀ g ∈ gs, g ≠ []) →
    joinWith sep (gs.map (joinWith sep)) = joinWith sep gs.flatten := by
  intro gs
  induction gs with
  | nil => intro _; rfl
  | cons g gs ih =>
    intro h
    cases gs with
    | nil => simp [joinWith]
    | cons g' gs' =>
      have ih' := ih (fun g'' h'' => h g'' (List.mem_cons_of_mem g h''))
      have hne : (g' :: gs').flatten ≠ [] := by
        have hg' : g' ≠ [] := h g' (by simp)
        rw [List.flatten_cons]
        cases g' with
        | nil => exact absurd rfl hg'
        | cons y ys => simp
      rw [List.map_cons, List.map_cons, joinWith]
      rw [← List.map_cons (joinWith sep) g' gs']
      rw [ih']
      rw [show ((g :: g' :: gs').flatten : List String) = g ++ (g' :: gs').flatten from rfl]
      rw [joinWith_append sep g ((g' :: gs').flatten) (h g (List.mem_cons_self g _)) hne]

/-- The grouping loop flattens back to the word list when given enough fuel. -/
theorem groupWords_join : ∀ (fuel : Nat) (ws : List String) (size : Nat),
    ws.length ≤ fuel → (groupWords fuel ws size).flatten = ws := by
  intro fuel
  induction fuel with
  | zero =>
    intro ws size h
    cases ws with
    | nil => rfl
    | cons w ws => simp at h
  | succ fuel ih =>
    intro ws size h
    cases ws with
    | nil => rfl
    | cons w ws =>
      rw [groupWords, List.flatten_cons]
      rw [ih (ws.drop (size - 1)) size (by simp only [List.length_drop]; simp at h; omega)]
      simp [List.take_append_drop]

/-- Every group the grouping loop produces is non-empty. -/
theorem groupWords_ne_nil : ∀ (fuel : Nat) (ws : List String) (size : Nat),
    ∀ g ∈ groupWords fuel ws size, g ≠ [] := by
  intro fuel
  induction fuel with
  | zero =>
    intro ws size g hg
    cases ws with
    | nil => simp [groupWords] at hg
    | cons w ws => simp [groupWords] at hg
  | succ fuel ih =>
    intro ws size g hg
    cases ws with
    | nil => simp [groupWords] at hg
    | cons w ws =>
      rw [groupWords] at hg
      rcases List.mem_cons.mp hg with rfl | hg'
      · simp
      · exact ih (ws.drop (size - 1)) size g hg'

/-- Chunk count of the grouping loop: the ceiling of words over size. -/
theorem groupWords_length : ∀ (fuel : Nat) (ws : List String) (size : Nat),
    ws.length ≤ fuel → 1 ≤ size →
    (groupWords fuel ws size).length = (ws.length + size - 1) / size := by
  intro fuel
  induction fuel with
  | zero =>
    intro ws size h hs
    cases ws with
    | nil => simp [groupWords, Nat.div_eq_of_lt (show size - 1 < size by omega)]
    | cons w ws => simp at h
  | succ fuel ih =>
    intro ws size h hs
    cases ws with
    | nil => simp [groupWords, Nat.div_eq_of_lt (show size - 1 < size by omega)]
    | cons w ws =>
      rw [groupWords, List.length_cons]
      rw [ih (ws.drop (size - 1)) size (by simp only [List.length_drop]; simp at h; omega) hs]
      rw [List.length_drop, List.length_cons]
      rcases Nat.lt_or_ge ws.length (size - 1) with hlt | hge
      · rw [Nat.sub_eq_zero_of_le (le_of_lt hlt)]
        rw [Nat.div_eq_of_lt (by omega)]
        have h2 : ws.length + 1 + size - 1 = ws.length + size := by omega
        rw [h2, Nat.add_div_right _ (by omega)]
        rw [Nat.div_eq_of_lt (by omega)]
      · have h1 : ws.length - (size - 1) + size - 1 = ws.length := by omega
        have h2 : ws.length + 1 + size - 1 = ws.length + size := by omega
        rw [h1, h2, Nat.add_div_right _ (by omega)]

/-- C4 (confirmed): for every text and every chunk size ≥ 1, joining the
chunker's output with single spaces and re-splitting on whitespace recovers
exactly the whitespace-token word sequence of the text, the number of chunks
is `⌈wordCount / size⌉`, and empty input yields the empty sequence. -/
theorem split_document_round_trip (t : String) (size : Nat) (hs : 1 ≤ size) :
    splitWords (joinWith " " (split_document t size)) = splitWords t ∧
    (split_document t size).length = ((splitWords t).length + size - 1) / size ∧
    split_document "" size = [] := by
  refine ⟨?_, ?_, rfl⟩
  · unfold split_document
    rw [joinWith_flatten " " _
      (groupWords_ne_nil (splitWords t).length (splitWords t) size)]
    rw [groupWords_join (splitWords t).length (splitWords t) size le_rfl]
    have hwf : ∀ w ∈ splitWordsAux t.toList [], w ≠ [] ∧
        ∀ c ∈ w, c.isWhitespace = false :=
      splitWordsAux_wf t.toList [] (by simp)
    show splitWords (joinWith " " ((splitWordsAux t.toList []).map String.mk)) = splitWords t
    unfold splitWords
    rw [joinWith_map_mk]
    rw [splitWordsAux_joinWordsChar (splitWordsAux t.toList []) hwf]
  · unfold split_document
    rw [List.length_map]
    exact groupWords_length (splitWords t).length (splitWords t) size le_rfl hs

/-- Witness for C4 at a concrete text and size. -/
theorem split_document_round_trip_witness :
    (1 : Nat) ≤ 2 ∧
    (splitWords (joinWith " " (split_document "alpha beta gamma" 2)) =
        splitWords "alpha beta gamma" ∧
      (split_document "alpha beta gamma" 2).length =
        ((splitWords "alpha beta gamma").length + 2 - 1) / 2 ∧
      split_document "" 2 = []) :=
  ⟨by decide, split_document_round_trip "alpha beta gamma" 2 (by decide)⟩

/-! ## Claim C5 — duration-field two-tier preference -/

/-- C5 (confirmed): whenever the duration branch is triggered for an
insurance-policy field map, the router returns a snippet carrying both a
duration keyword and the numeric-duration pattern whenever any scanned
candidate does; only when no candidate carries both does it fall back to a
keyword-only snippet; and when no candidate carries a duration keyword at
all, no structured duration answer is produced. -/
theorem duration_preference (query : String) (analysis : Analysis) (query_type : String)
    (hq : (query_type == "duration" ||
      duration_query_keywords.any (fun k => strContains (strLower query) k)) = true) :
    ((∃ t ∈ durationCandidates analysis,
        hasDurationKeyword t = true ∧ hasDurationPattern t = true) →
      ∃ t, try_structured_extraction query analysis "Insurance Policy" query_type =
          some ⟨t, ⟨0, 0, 0⟩⟩ ∧ hasDurationKeyword t = true ∧ hasDurationPattern t = true) ∧
    ((∀ t ∈ durationCandidates analysis,
        ¬(hasDurationKeyword t = true ∧ hasDurationPattern t = true)) →
      (∃ t ∈ durationCandidates analysis, hasDurationKeyword t = true) →
      ∃ t, try_structured_extraction query analysis "Insurance Policy" query_type =
          some ⟨t, ⟨0, 0, 0⟩⟩ ∧ hasDurationKeyword t = true) ∧
    ((∀ t ∈ durationCandidates analysis, hasDurationKeyword t = false) →
      try_structured_extraction query analysis "Insurance Policy" query_type = none) := by
  have hres : try_structured_extraction query analysis "Insurance Policy" query_type =
      durationAnswer analysis := by
    unfold try_structured_extraction
    rw [if_pos (by decide)]
    dsimp only
    rw [if_pos hq]
  refine ⟨?_, ?_, ?_⟩
  · intro hex
    obtain ⟨t, htmem, htkw, htpat⟩ := hex
    have hsome : ((durationCandidates analysis).find?
        (fun t => hasDurationKeyword t && hasDurationPattern t)).isSome := by
      rw [List.find?_isSome]
      exact ⟨t, htmem, by rw [htkw, htpat]; rfl⟩
    obtain ⟨t', ht'⟩ := Option.isSome_iff_exists.mp hsome
    have hp := List.find?_some ht'
    rw [Bool.and_eq_true] at hp
    refine ⟨t', ?_, hp.1, hp.2⟩
    rw [hres]
    unfold durationAnswer
    rw [ht']
  · intro hnone hex
    have hfst : (durationCandidates analysis).find?
        (fun t => hasDurationKeyword t && hasDurationPattern t) = none := by
      rw [List.find?_eq_none]
      intro x hx hcontra
      rw [Bool.and_eq_true] at hcontra
      exact hnone x hx ⟨hcontra.1, hcontra.2⟩
    obtain ⟨t, htmem, htkw⟩ := hex
    have hsome : ((durationCandidates analysis).find?
        (fun t => hasDurationKeyword t)).isSome := by
      rw [List.find?_isSome]
      exact ⟨t, htmem, htkw⟩
    obtain ⟨t', ht'⟩ := Option.isSome_iff_exists.mp hsome
    have hp := List.find?_some ht'
    refine ⟨t', ?_, hp⟩
    rw [hres]
    unfold durationAnswer
    rw [hfst, ht']
  · intro hall
    have hfst : (durationCandidates analysis).find?
        (fun t => hasDurationKeyword t && hasDurationPattern t) = none := by
      rw [List.find?_eq_none]
      intro x hx hcontra
      rw [Bool.and_eq_true] at hcontra
      rw [hall x hx] at hcontra
      exact Bool.noConfusion hcontra.1
    have hsnd : (durationCandidates analysis).find?
        (fun t => hasDurationKeyword t) = none := by
      rw [List.find?_eq_none]
      intro x hx hcontra
      rw [hall x hx] at hcontra
      exact Bool.noConfusion hcontra
    rw [hres]
    unfold durationAnswer
    rw [hfst, hsnd]

/-- Field map with two duration candidates, the pattern-free one listed
first, used to witness the two-tier preference. -/
def c5Analysis : Analysis where
  document_type := "Insurance Policy"
  policy_type := "Insurance Policy"
  coverage_details := []
  exclusions := []
  claims_process := []
  premium_info := ""
  key_sections := []
  key_terms := ["Policy period stated on the schedule", "Policy period: 12 months"]
  terms_conditions := []
  definitions := []

/-- Witness for C5: against `c5Analysis` the duration branch returns a
snippet that carries both a duration keyword and the numeric pattern, even
though the keyword-only snippet is ranked first. -/
theorem duration_preference_witness :
    ∃ t, try_structured_extraction "how long is the policy period" c5Analysis
        "Insurance Policy" "duration" = some ⟨t, ⟨0, 0, 0⟩⟩ ∧
      hasDurationKeyword t = true ∧ hasDurationPattern t = true :=
  (duration_preference "how long is the policy period" c5Analysis "duration"
    (by decide)).1 (by decide)

/-! ## Claim C6 — structured short-circuit with zero token usage -/

/-- Every answer of a section-scanning branch carries zero usage. -/
theorem sectionAnswer_usage (snippets detail_keywords : List String) (r : QueryResult)
    (h : sectionAnswer snippets detail_keywords = some r) : r.token_usage = ⟨0, 0, 0⟩ := by
  unfold sectionAnswer at h
  split at h
  · cases h; rfl
  · cases h

/-- Every answer of the duration branch carries zero usage. -/
theorem durationAnswer_usage (analysis : Analysis) (r : QueryResult)
    (h : durationAnswer analysis = some r) : r.token_usage = ⟨0, 0, 0⟩ := by
  unfold durationAnswer at h
  split at h
  · cases h; rfl
  · split at h
    · cases h; rfl
    · cases h

/-- Every answer of the premium branch carries zero usage. -/
theorem premiumAnswer_usage (analysis : Analysis) (r : QueryResult)
    (h : premiumAnswer analysis = some r) : r.token_usage = ⟨0, 0, 0⟩ := by
  unfold premiumAnswer at h
  split at h
  · cases h; rfl
  · cases h

/-- Every answer the structured extraction returns carries zero token-usage
counters. -/
theorem try_structured_extraction_usage (query : String) (analysis : Analysis)
    (document_type query_type : String) (r : QueryResult)
    (h : try_structured_extraction query analysis document_type query_type = some r) :
    r.token_usage = ⟨0, 0, 0⟩ := by
  unfold try_structured_extraction at h
  dsimp only at h
  repeat' split at h
  all_goals first
    | (exact durationAnswer_usage analysis r h)
    | (exact premiumAnswer_usage analysis r h)
    | (exact sectionAnswer_usage _ _ r h)
    | (cases h)

/-- C6 (confirmed): when structured extraction yields an answer, the query
router returns exactly that answer, with all token-usage counters zero, and
the retrieval-plus-generation fallback does not run (flag `false`); the
fallback runs exactly when structured extraction yields nothing. -/
theorem router_short_circuit (query document_text filename query_type : String)
    (analysis : Analysis) (ragResult : QueryResult)
    (hq : query ≠ "") (hd : document_text ≠ "") (hf : filename ≠ "") :
    (∀ r, try_structured_extraction query analysis analysis.document_type query_type =
        some r →
      process_query query document_text filename analysis query_type ragResult =
          .ok (r, false) ∧
        r.token_usage = ⟨0, 0, 0⟩) ∧
    (try_structured_extraction query analysis analysis.document_type query_type = none →
      process_query query document_text filename analysis query_type ragResult =
        .ok (ragResult, true)) := by
  have hg1 : ¬ ((query == "") = true) := by simp [hq]
  have hg2 : ¬ ((document_text == "" || filename == "") = true) := by simp [hd, hf]
  constructor
  · intro r hr
    refine ⟨?_, try_structured_extraction_usage query analysis analysis.document_type
      query_type r hr⟩
    unfold process_query
    rw [if_neg hg1, if_neg hg2, hr]
  · intro hn
    unfold process_query
    rw [if_neg hg1, if_neg hg2, hn]

/-- Witness for C6 at a concrete coverage query: the structured hit is
returned with zero usage and no fallback, and a miss falls back. -/
theorem router_short_circuit_witness :
    (process_query "what is covered" "doc text" "f.pdf" c5Analysis "coverage"
        ⟨"rag answer", ⟨3, 4, 7⟩⟩ = .ok (⟨"rag answer", ⟨3, 4, 7⟩⟩, true)) ∧
    (process_query "how long is the policy period" "doc text" "f.pdf" c5Analysis "duration"
        ⟨"rag answer", ⟨3, 4, 7⟩⟩ =
      .ok (⟨"Policy period: 12 months", ⟨0, 0, 0⟩⟩, false)) := by
  constructor
  · exact (router_short_circuit "what is covered" "doc text" "f.pdf" "coverage"
      c5Analysis ⟨"rag answer", ⟨3, 4, 7⟩⟩ (by decide) (by decide) (by decide)).2 (by decide)
  · exact ((router_short_circuit "how long is the policy period" "doc text" "f.pdf"
      "duration" c5Analysis ⟨"rag answer", ⟨3, 4, 7⟩⟩ (by decide) (by decide) (by decide)).1
      ⟨"Policy period: 12 months", ⟨0, 0, 0⟩⟩ (by decide)).1

/-! ## Claims C7/C8 — retry wrapper -/

/-- One unfolding step of the attempt loop. -/
theorem retryLoop_succ (f : Nat → CallOutcome) (base : ℚ)
    (remaining attempt calls : Nat) (slept : ℚ) :
    retryLoop f base (remaining + 1) attempt calls slept =
      match f attempt with
      | .success v => (.ok v, calls + 1, slept)
      | .failure msg =>
        if strContains msg "rate_limit_exceeded" && remaining != 0 then
          retryLoop f base remaining (attempt + 1) (calls + 1)
            (slept + (base * 2 ^ attempt + (parseRetryTime msg).getD 10))
        else (.error msg, calls + 1, slept) := rfl

/-- C7 (confirmed): an operation that fails on its first two invocations with
rate-limit errors whose messages parse to a 2.5-second retry hint and
succeeds on the third is invoked exactly 3 times under the defaults
(maxRetries 3, baseDelay 1), and the total slept delay is
`1*2^0 + 2.5` plus `1*2^1 + 2.5`, i.e. 8 seconds, which meets the claimed
lower bound. -/
theorem retry_three_calls (f : Nat → CallOutcome) (m0 m1 v : String)
    (h0 : f 0 = .failure m0) (h1 : f 1 = .failure m1) (h2 : f 2 = .success v)
    (hr0 : strContains m0 "rate_limit_exceeded" = true)
    (hr1 : strContains m1 "rate_limit_exceeded" = true)
    (hp0 : parseRetryTime m0 = some (5 / 2)) (hp1 : parseRetryTime m1 = some (5 / 2)) :
    retry_with_backoff f 3 1 = (.ok v, 3, (8 : ℚ)) ∧
    (1 : ℚ) * 1 + 5 / 2 + (1 * 2 + 5 / 2) ≤ 8 := by
  refine ⟨?_, by norm_num⟩
  rw [show retry_with_backoff f 3 1 = retryLoop f 1 (2 + 1) 0 0 0 from rfl]
  rw [retryLoop_succ, h0]
  dsimp only
  rw [if_pos (by rw [hr0]; decide), hp0]
  rw [show (2 : Nat) = 1 + 1 from rfl, retryLoop_succ, h1]
  dsimp only
  rw [if_pos (by rw [hr1]; decide), hp1]
  rw [show (1 : Nat) = 0 + 1 from rfl, retryLoop_succ, h2]
  dsimp only
  rw [Prod.mk.injEq, Prod.mk.injEq]
  refine (and_iff_right rfl).mpr ⟨by norm_num, by norm_num⟩

/-- Message raised by the operation used to witness C7. -/
def c7msg : String := "rate_limit_exceeded: Please try again in 2.5s"

/-- Operation failing rate-limited on its first two invocations and
succeeding on the third. -/
def c7f : Nat → CallOutcome :=
  fun n => if n < 2 then .failure c7msg else .success "ok"

/-- Witness for C7 at the concrete operation `c7f`. -/
theorem retry_three_calls_witness :
    retry_with_backoff c7f 3 1 = (.ok "ok", 3, (8 : ℚ)) ∧
    (1 : ℚ) * 1 + 5 / 2 + (1 * 2 + 5 / 2) ≤ 8 := by
  have hp : parseRetryTime c7msg = some (5 / 2) := by
    have h1 : parseRetryTime c7msg = some (ratOfDecimalChars ['2', '.', '5']) := rfl
    have h2 : ratOfDecimalChars ['2', '.', '5'] =
        ((2 : ℕ) : ℚ) + ((5 : ℕ) : ℚ) / (10 : ℚ) ^ (1 : ℕ) := rfl
    rw [h1, h2]
    norm_num
  exact retry_three_calls c7f c7msg c7msg "ok" rfl rfl rfl (by decide) (by decide) hp hp

/-- C8 (confirmed): a non-rate-limit failure on the first invocation
propagates immediately (one call, no sleep); a failure on the final attempt
propagates immediately whatever its kind, both for a single-attempt budget
and at the loop's last attempt in general; and a zero-attempt budget — the
only way the loop can be exhausted without a success or a propagated error —
raises the generic "Max retries reached" failure. -/
theorem retry_propagation (f : Nat → CallOutcome) (base : ℚ) (max_retries : Nat)
    (m : String) :
    (1 ≤ max_retries → f 0 = .failure m →
      strContains m "rate_limit_exceeded" = false →
      retry_with_backoff f max_retries base = (.error m, 1, 0)) ∧
    (f 0 = .failure m → retry_with_backoff f 1 base = (.error m, 1, 0)) ∧
    (∀ attempt calls : Nat, ∀ slept : ℚ, f attempt = .failure m →
      retryLoop f base 1 attempt calls slept = (.error m, calls + 1, slept)) ∧
    retry_with_backoff f 0 base = (.error "Max retries reached", 0, 0) := by
  have hlast : ∀ attempt calls : Nat, ∀ slept : ℚ, f attempt = .failure m →
      retryLoop f base 1 attempt calls slept = (.error m, calls + 1, slept) := by
    intro attempt calls slept hf
    rw [show (1 : Nat) = 0 + 1 from rfl, retryLoop_succ, hf]
    dsimp only
    rw [if_neg (by simp)]
  refine ⟨?_, ?_, hlast, rfl⟩
  · intro hmr hf hrate
    obtain ⟨k, rfl⟩ : ∃ k, max_retries = k + 1 := ⟨max_retries - 1, by omega⟩
    rw [show retry_with_backoff f (k + 1) base = retryLoop f base (k + 1) 0 0 0 from rfl]
    rw [retryLoop_succ, hf]
    dsimp only
    rw [if_neg (by rw [hrate]; simp)]
  · intro hf
    exact hlast 0 0 0 hf

/-- Witness for C8 at a concrete always-failing operation. -/
theorem retry_propagation_witness :
    retry_with_backoff (fun _ => CallOutcome.failure "boom") 2 1 = (.error "boom", 1, 0) ∧
    retry_with_backoff (fun _ => CallOutcome.failure "boom") 1 1 = (.error "boom", 1, 0) ∧
    retryLoop (fun _ => CallOutcome.failure "boom") 1 1 5 7 0 = (.error "boom", 8, 0) ∧
    retry_with_backoff (fun _ => CallOutcome.failure "boom") 0 1 =
      (.error "Max retries reached", 0, 0) := by
  have h := retry_propagation (fun _ => CallOutcome.failure "boom") 1 2 "boom"
  exact ⟨h.1 (by decide) rfl (by decide), h.2.1 rfl, h.2.2.1 5 7 0 rfl, h.2.2.2⟩

/-! ## Claim C9 — non-insurance documents bypass structured extraction -/

/-- C9 (confirmed): when the document type is anything but exactly
"Insurance Policy", structured extraction yields no answer, so the router
routes every query on such a document to the retrieval-plus-generation
fallback. -/
theorem non_insurance_no_structured_answer
    (query query_type document_type document_text filename : String)
    (analysis : Analysis) (ragResult : QueryResult)
    (hdt : document_type ≠ "Insurance Policy")
    (hdt2 : analysis.document_type ≠ "Insurance Policy")
    (hq : query ≠ "") (hd : document_text ≠ "") (hf : filename ≠ "") :
    try_structured_extraction query analysis document_type query_type = none ∧
    process_query query document_text filename analysis query_type ragResult =
      .ok (ragResult, true) := by
  have h2 : try_structured_extraction query analysis analysis.document_type query_type
      = none := by
    unfold try_structured_extraction
    rw [if_neg (by simp [hdt2])]
  refine ⟨?_, ?_⟩
  · unfold try_structured_extraction
    rw [if_neg (by simp [hdt])]
  · unfold process_query
    rw [if_neg (by simp [hq]), if_neg (by simp [hd, hf]), h2]

/-- Field map of a generic document, used to witness C9. -/
def c9Analysis : Analysis where
  document_type := "General Document"
  policy_type := ""
  coverage_details := ["coverage is discussed here at length"]
  exclusions := []
  claims_process := []
  premium_info := "premium data"
  key_sections := []
  key_terms := ["policy period: 12 months"]
  terms_conditions := []
  definitions := []

/-- Witness for C9: a coverage query against a generic document finds no
structured answer (despite matching section content) and falls back. -/
theorem non_insurance_no_structured_answer_witness :
    try_structured_extraction "what is covered" c9Analysis "General Document" "coverage"
        = none ∧
    process_query "what is covered" "doc text" "f.pdf" c9Analysis "coverage"
        ⟨"rag answer", ⟨3, 4, 7⟩⟩ = .ok (⟨"rag answer", ⟨3, 4, 7⟩⟩, true) :=
  non_insurance_no_structured_answer "what is covered" "coverage" "General Document"
    "doc text" "f.pdf" c9Analysis ⟨"rag answer", ⟨3, 4, 7⟩⟩
    (by decide) (by decide) (by decide) (by decide) (by decide)

/-! ## Claim C10 — premium sentinel short-circuit -/

/-- Insurance-policy text with coverage and exclusions sections but no
premium/payment/cost section. -/
def c10text : String :=
  "Insurance Policy\nCoverage\nHospitalization is covered in full\n\nExclusions\nCosmetic surgery is excluded"

/-- C10 counterexample: against an insurance document with no premium
section (premium field = the sentinel), the premium-type query
"What is the premium cost for the policy period?" is _not_ answered by the
structured short-circuit: its text contains the duration keyword "period",
so the earlier duration branch captures it, finds no candidates (the
insurance analyzer never populates the scanned sections) and the extraction
returns none, sending the query to retrieval plus generation. -/
theorem c10_premium_query_captured_by_duration_branch :
    find_section c10text ["premium", "payment", "cost"] = "" ∧
    (analyze_insurance_policy c10text).premium_info = "Premium information not found" ∧
    try_structured_extraction "What is the premium cost for the policy period?"
      (analyze_insurance_policy c10text) "Insurance Policy" "premium" = none := by
  decide

/-- C10 (amended): for an insurance-policy text with no premium/payment/cost
section the premium field is the sentinel "Premium information not found",
which itself contains "premium"; a premium-type query is answered by the
structured short-circuit with that sentinel and zero usage — provided the
query text does not also match an earlier branch of the router's elif chain
(duration, coverage, exclusions or claims keywords), in which case that
earlier branch captures the query first. -/
theorem premium_sentinel_short_circuit (text query document_text filename : String)
    (ragResult : QueryResult)
    (hsec : find_section text ["premium", "payment", "cost"] = "")
    (h1 : duration_query_keywords.any (fun k => strContains (strLower query) k) = false)
    (h2 : coverage_query_keywords.any (fun k => strContains (strLower query) k) = false)
    (h3 : exclusion_query_keywords.any (fun k => strContains (strLower query) k) = false)
    (h4 : claims_query_keywords.any (fun k => strContains (strLower query) k) = false)
    (hq : query ≠ "") (hd : document_text ≠ "") (hf : filename ≠ "") :
    (analyze_insurance_policy text).premium_info = "Premium information not found" ∧
    try_structured_extraction query (analyze_insurance_policy text)
        "Insurance Policy" "premium" =
      some ⟨"Premium information not found", ⟨0, 0, 0⟩⟩ ∧
    process_query query document_text filename (analyze_insurance_policy text)
        "premium" ragResult =
      .ok (⟨"Premium information not found", ⟨0, 0, 0⟩⟩, false) := by
  have hpi : (analyze_insurance_policy text).premium_info =
      "Premium information not found" := by
    show extract_premium_info text = "Premium information not found"
    unfold extract_premium_info
    rw [hsec]
    rfl
  have hext : try_structured_extraction query (analyze_insurance_policy text)
      "Insurance Policy" "premium" =
      some ⟨"Premium information not found", ⟨0, 0, 0⟩⟩ := by
    unfold try_structured_extraction
    rw [if_pos (by decide)]
    dsimp only
    rw [if_neg (by rw [h1]; decide), if_neg (by rw [h2]; decide),
      if_neg (by rw [h3]; decide), if_neg (by rw [h4]; decide)]
    rw [if_pos (by simp)]
    unfold premiumAnswer
    rw [hpi]
    rw [if_pos (by decide)]
  refine ⟨hpi, hext, ?_⟩
  unfold process_query
  rw [if_neg (by simp [hq]), if_neg (by simp [hd, hf])]
  have hdoc : (analyze_insurance_policy text).document_type = "Insurance Policy" := rfl
  rw [hdoc, hext]

/-- Witness for the amended C10: a plain premium query against `c10text` is
answered by the sentinel with zero usage and no fallback. -/
theorem premium_sentinel_short_circuit_witness :
    (analyze_insurance_policy c10text).premium_info = "Premium information not found" ∧
    try_structured_extraction "What is my premium?" (analyze_insurance_policy c10text)
        "Insurance Policy" "premium" =
      some ⟨"Premium information not found", ⟨0, 0, 0⟩⟩ ∧
    process_query "What is my premium?" "doc text" "f.pdf"
        (analyze_insurance_policy c10text) "premium" ⟨"rag answer", ⟨3, 4, 7⟩⟩ =
      .ok (⟨"Premium information not found", ⟨0, 0, 0⟩⟩, false) :=
  premium_sentinel_short_circuit c10text "What is my premium?" "doc text" "f.pdf"
    ⟨"rag answer", ⟨3, 4, 7⟩⟩ (by decide) (by decide) (by decide) (by decide) (by decide)
    (by decide) (by decide) (by decide)

end Pipeline
